import Mathlib

/-!
# cashier client: key generation (`client/keys.go`)

A shallow embedding of `generateRSAKey`, `generateECDSAKey`, `generateKey` and the
`keytypes` registry.

The Go standard library and `golang.org/x/crypto/ssh` are not part of the repository.
Their types and the three primitives the file calls (`rsa.GenerateKey`,
`ecdsa.GenerateKey`, `ssh.NewPublicKey`) are the fields of a parameter `L : Crypto`;
every theorem quantifies over all such libraries.  `rand.Reader` is explicit state,
threaded through the two generation primitives that receive it.  A ghost trace
records each external call in the order the source performs it.
-/

namespace Cashier

/-- The three values of `elliptic.Curve` the file constructs:
`elliptic.P256()`, `elliptic.P384()`, `elliptic.P521()`. -/
inductive Curve where
  | P256
  | P384
  | P521
deriving DecidableEq, Repr

/-- The external cryptographic libraries, taken as a parameter.
A library call that returns `(value, err)` in Go is an `Except`: `err != nil` is
`Except.error`, `err == nil` is `Except.ok` with a non-nil value. -/
structure Crypto where
  /-- State of the random source `rand.Reader`. -/
  Rand : Type
  /-- Pointee of `*rsa.PrivateKey`. -/
  RSAPrivateKey : Type
  /-- Pointee of `*rsa.PublicKey`. -/
  RSAPublicKey : Type
  /-- Pointee of `*ecdsa.PrivateKey`. -/
  ECDSAPrivateKey : Type
  /-- Pointee of `*ecdsa.PublicKey`. -/
  ECDSAPublicKey : Type
  /-- Values of the interface `ssh.PublicKey`. -/
  SSHPublicKey : Type
  /-- Error values produced by the libraries. -/
  Error : Type
  /-- The embedded field `k.PublicKey` of an RSA private key. -/
  rsaPublic : RSAPrivateKey → RSAPublicKey
  /-- The embedded field `k.PublicKey` of an ECDSA private key. -/
  ecdsaPublic : ECDSAPrivateKey → ECDSAPublicKey
  /-- The embedded field `Curve` of an ECDSA public key. -/
  ecdsaCurve : ECDSAPublicKey → Curve
  /-- The call `rsa.GenerateKey(rand.Reader, bits)`. -/
  rsaGenerateKey : Rand → Int → Except Error RSAPrivateKey × Rand
  /-- The call `ecdsa.GenerateKey(curve, rand.Reader)`. -/
  ecdsaGenerateKey : Curve → Rand → Except Error ECDSAPrivateKey × Rand
  /-- The call `ssh.NewPublicKey(key)` on a `*rsa.PublicKey` or a `*ecdsa.PublicKey`. -/
  sshNewPublicKey : RSAPublicKey ⊕ ECDSAPublicKey → Except Error SSHPublicKey

/-- Non-nil values of `type key interface{}` that the file returns:
a `*rsa.PrivateKey` or a `*ecdsa.PrivateKey`. -/
inductive key (L : Crypto) where
  | rsa (k : L.RSAPrivateKey)
  | ecdsa (k : L.ECDSAPrivateKey)

/-- Non-nil values of Go's `error` that the file returns: one built by `fmt.Errorf`
(carrying its message) or one received from a library call. -/
inductive error (L : Crypto) where
  | errorf (msg : String)
  | lib (e : L.Error)

/-- The result triple `(key, ssh.PublicKey, error)`; `none` is Go's `nil`. -/
structure Result (L : Crypto) where
  key : Option (key L)
  pub : Option L.SSHPublicKey
  err : Option (error L)

/-- One external call, as recorded in the ghost trace. -/
inductive Call (L : Crypto) where
  | rsaGenerateKey (bits : Int)
  | ecdsaGenerateKey (curve : Curve)
  | sshNewPublicKey (k : L.RSAPublicKey ⊕ L.ECDSAPublicKey)

/-- The state outside the function: the random source and the ghost trace of the
external calls made so far. -/
structure World (L : Crypto) where
  rand : L.Rand
  calls : List (Call L)

/-- The call `rsa.GenerateKey(rand.Reader, bits)`: consumes the random source. -/
def rsa.GenerateKey (L : Crypto) (bits : Int) (w : World L) :
    Except L.Error L.RSAPrivateKey × World L :=
  ((L.rsaGenerateKey w.rand bits).1,
   { rand := (L.rsaGenerateKey w.rand bits).2,
     calls := w.calls ++ [Call.rsaGenerateKey bits] })

/-- The call `ecdsa.GenerateKey(curve, rand.Reader)`: consumes the random source. -/
def ecdsa.GenerateKey (L : Crypto) (curve : Curve) (w : World L) :
    Except L.Error L.ECDSAPrivateKey × World L :=
  ((L.ecdsaGenerateKey curve w.rand).1,
   { rand := (L.ecdsaGenerateKey curve w.rand).2,
     calls := w.calls ++ [Call.ecdsaGenerateKey curve] })

/-- The call `ssh.NewPublicKey(key)`: receives no reader, leaves the random source
alone. -/
def ssh.NewPublicKey (L : Crypto) (k : L.RSAPublicKey ⊕ L.ECDSAPublicKey) (w : World L) :
    Except L.Error L.SSHPublicKey × World L :=
  (L.sshNewPublicKey k,
   { rand := w.rand, calls := w.calls ++ [Call.sshNewPublicKey k] })

/-- The type `keyfunc func(int) (key, ssh.PublicKey, error)`, with the outside state
passed explicitly. -/
abbrev keyfunc (L : Crypto) : Type := Int → World L → Result L × World L

/-- The function `generateRSAKey(bits)` (keys.go 23-33). -/
def generateRSAKey (L : Crypto) : keyfunc L := fun bits w =>
  match rsa.GenerateKey L bits w with
  | (Except.error err, w1) => ({ key := none, pub := none, err := some (error.lib err) }, w1)
  | (Except.ok k, w1) =>
    match ssh.NewPublicKey L (Sum.inl (L.rsaPublic k)) w1 with
    | (Except.error err, w2) => ({ key := none, pub := none, err := some (error.lib err) }, w2)
    | (Except.ok pub, w2) => ({ key := some (key.rsa k), pub := some pub, err := none }, w2)

/-- The message of the `fmt.Errorf` in the `default` branch of `generateECDSAKey`. -/
def unsupportedKeySizeMsg : String :=
  "Unsupported key size. Valid sizes are '256', '384', '521'"

/-- The function `generateECDSAKey(bits)` (keys.go 35-56).  The `switch bits` either
assigns `curve` or returns from the `default` branch. -/
def generateECDSAKey (L : Crypto) : keyfunc L := fun bits w =>
  let curve : Option Curve :=
    if bits = 256 then some Curve.P256
    else if bits = 384 then some Curve.P384
    else if bits = 521 then some Curve.P521
    else none
  match curve with
  | none =>
    ({ key := none, pub := none, err := some (error.errorf unsupportedKeySizeMsg) }, w)
  | some curve =>
    match ecdsa.GenerateKey L curve w with
    | (Except.error err, w1) =>
      ({ key := none, pub := none, err := some (error.lib err) }, w1)
    | (Except.ok k, w1) =>
      match ssh.NewPublicKey L (Sum.inr (L.ecdsaPublic k)) w1 with
      | (Except.error err, w2) =>
        ({ key := none, pub := none, err := some (error.lib err) }, w2)
      | (Except.ok pub, w2) =>
        ({ key := some (key.ecdsa k), pub := some pub, err := none }, w2)

/-- The registry `keytypes` (keys.go 16-21): a map from type name to generation
function, as the list of its two entries. -/
def keytypes (L : Crypto) : List (String × keyfunc L) :=
  [("rsa", generateRSAKey L), ("ecdsa", generateECDSAKey L)]

/-- All ways to insert `a` into a list. -/
def inserts {α : Type} (a : α) : List α → List (List α)
  | [] => [[a]]
  | b :: l => (a :: b :: l) :: (inserts a l).map (fun t => b :: t)

/-- All orderings of a list. -/
def orderings {α : Type} : List α → List (List α)
  | [] => [[]]
  | a :: l => (orderings l).flatMap (inserts a)

/-- The loop `for k := range m { valid = append(valid, k) }`: Go leaves the iteration
order of a map unspecified, so `order` selects which ordering of the keys this
execution of the loop visits. -/
def rangeKeys {V : Type} (m : List (String × V)) (order : Nat) : List String :=
  (orderings (m.map Prod.fst)).getD (order % (orderings (m.map Prod.fst)).length)
    (m.map Prod.fst)

/-- The verb `%s` of package `fmt` applied to a `[]string`: the elements separated by
one space, in square brackets. -/
def fmtStrings (l : List String) : String :=
  "[" ++ " ".intercalate l ++ "]"

/-- The message `fmt.Errorf("Unsupported key type %s. Valid choices are %s", keytype, valid)`
builds. -/
def unsupportedKeyTypeMsg (keytype : String) (valid : List String) : String :=
  "Unsupported key type " ++ keytype ++ ". Valid choices are " ++ fmtStrings valid

/-- The function `generateKey(keytype, bits)` (keys.go 58-68).  `order` is the iteration
order the runtime picks for `range keytypes`. -/
def generateKey (L : Crypto) (order : Nat) (keytype : String) : keyfunc L := fun bits w =>
  match (keytypes L).lookup keytype with
  | none =>
    let valid := rangeKeys (keytypes L) order
    ({ key := none, pub := none,
       err := some (error.errorf (unsupportedKeyTypeMsg keytype valid)) }, w)
  | some f => f bits w

/-- A result is whole or empty: a nil error with a key and a public key, or a non-nil
error with neither. -/
def Result.wholeOrEmpty {L : Crypto} (r : Result L) : Prop :=
  (r.err = none ∧ r.key ≠ none ∧ r.pub ≠ none) ∨
    (r.err ≠ none ∧ r.key = none ∧ r.pub = none)

/-! ## A concrete library, for evaluating the definitions -/

/-- A small deterministic library: the random source is a counter; RSA generation
fails below 2 bits; a private key is a pair of the size or curve and the counter
value it was drawn from; SSH conversion fails on an RSA public key of 3 bits. -/
def toyCrypto : Crypto where
  Rand := Nat
  RSAPrivateKey := Int × Nat
  RSAPublicKey := Int × Nat
  ECDSAPrivateKey := Curve × Nat
  ECDSAPublicKey := Curve × Nat
  SSHPublicKey := String × Nat
  Error := String
  rsaPublic := fun k => k
  ecdsaPublic := fun k => k
  ecdsaCurve := fun k => k.1
  rsaGenerateKey := fun r bits =>
    if bits < 2 then (Except.error "crypto/rsa: too few bits", r)
    else (Except.ok (bits, r), r + 1)
  ecdsaGenerateKey := fun c r => (Except.ok (c, r), r + 1)
  sshNewPublicKey := fun k =>
    match k with
    | Sum.inl (bits, r) =>
      if bits = 3 then Except.error "ssh: unsupported key" else Except.ok ("ssh-rsa", r)
    | Sum.inr (Curve.P256, r) => Except.ok ("ecdsa-sha2-nistp256", r)
    | Sum.inr (Curve.P384, r) => Except.ok ("ecdsa-sha2-nistp384", r)
    | Sum.inr (Curve.P521, r) => Except.ok ("ecdsa-sha2-nistp521", r)

/-- A starting state for `toyCrypto`: counter at 7, empty trace. -/
def toyWorld : World toyCrypto := { rand := (7 : Nat), calls := [] }

/-! ## Lemmas on the registry -/

theorem lookup_keytypes_rsa (L : Crypto) :
    (keytypes L).lookup "rsa" = some (generateRSAKey L) := by
  rfl

theorem lookup_keytypes_ecdsa (L : Crypto) :
    (keytypes L).lookup "ecdsa" = some (generateECDSAKey L) := by
  rfl

theorem lookup_keytypes_none (L : Crypto) (keytype : String)
    (h1 : keytype ≠ "rsa") (h2 : keytype ≠ "ecdsa") :
    (keytypes L).lookup keytype = none := by
  have e1 : (keytype == "rsa") = false := beq_eq_false_iff_ne.mpr h1
  have e2 : (keytype == "ecdsa") = false := beq_eq_false_iff_ne.mpr h2
  simp [keytypes, List.lookup, e1, e2]

theorem rangeKeys_keytypes (L : Crypto) (order : Nat) :
    rangeKeys (keytypes L) order = ["rsa", "ecdsa"] ∨
      rangeKeys (keytypes L) order = ["ecdsa", "rsa"] := by
  have hlen : (orderings ((keytypes L).map Prod.fst)).length = 2 := rfl
  have hlt : order % 2 < 2 := Nat.mod_lt _ (by decide)
  unfold rangeKeys
  rw [hlen]
  rcases Nat.lt_succ_iff_lt_or_eq.mp hlt with h | h
  · have h0 : order % 2 = 0 := by omega
    rw [h0]; left; rfl
  · rw [h]; right; rfl

theorem generateKey_of_unregistered (L : Crypto) (order : Nat) (keytype : String)
    (bits : Int) (w : World L) (h1 : keytype ≠ "rsa") (h2 : keytype ≠ "ecdsa") :
    generateKey L order keytype bits w =
      ({ key := none, pub := none,
         err := some (error.errorf
           (unsupportedKeyTypeMsg keytype (rangeKeys (keytypes L) order))) }, w) := by
  simp only [generateKey, lookup_keytypes_none L keytype h1 h2]

theorem generateKey_rsa_eq (L : Crypto) (order : Nat) (bits : Int) (w : World L) :
    generateKey L order "rsa" bits w = generateRSAKey L bits w := by
  simp only [generateKey, lookup_keytypes_rsa]

theorem generateKey_ecdsa_eq (L : Crypto) (order : Nat) (bits : Int) (w : World L) :
    generateKey L order "ecdsa" bits w = generateECDSAKey L bits w := by
  simp only [generateKey, lookup_keytypes_ecdsa]

theorem generateECDSAKey_of_invalid (L : Crypto) (bits : Int) (w : World L)
    (h1 : bits ≠ 256) (h2 : bits ≠ 384) (h3 : bits ≠ 521) :
    generateECDSAKey L bits w =
      ({ key := none, pub := none,
         err := some (error.errorf unsupportedKeySizeMsg) }, w) := by
  simp [generateECDSAKey, h1, h2, h3]

/-! ## The three outcomes of each generation function -/

theorem generateRSAKey_gen_error (L : Crypto) (bits : Int) (w : World L) (e : L.Error)
    (hg : (L.rsaGenerateKey w.rand bits).1 = Except.error e) :
    generateRSAKey L bits w =
      ({ key := none, pub := none, err := some (error.lib e) },
       { rand := (L.rsaGenerateKey w.rand bits).2,
         calls := w.calls ++ [Call.rsaGenerateKey bits] }) := by
  simp only [generateRSAKey, rsa.GenerateKey, hg]

theorem generateRSAKey_conv_error (L : Crypto) (bits : Int) (w : World L)
    (k : L.RSAPrivateKey) (e : L.Error)
    (hg : (L.rsaGenerateKey w.rand bits).1 = Except.ok k)
    (hc : L.sshNewPublicKey (Sum.inl (L.rsaPublic k)) = Except.error e) :
    generateRSAKey L bits w =
      ({ key := none, pub := none, err := some (error.lib e) },
       { rand := (L.rsaGenerateKey w.rand bits).2,
         calls := w.calls ++ [Call.rsaGenerateKey bits] ++
           [Call.sshNewPublicKey (Sum.inl (L.rsaPublic k))] }) := by
  simp only [generateRSAKey, rsa.GenerateKey, ssh.NewPublicKey, hg, hc]

theorem generateRSAKey_ok (L : Crypto) (bits : Int) (w : World L)
    (k : L.RSAPrivateKey) (p : L.SSHPublicKey)
    (hg : (L.rsaGenerateKey w.rand bits).1 = Except.ok k)
    (hc : L.sshNewPublicKey (Sum.inl (L.rsaPublic k)) = Except.ok p) :
    generateRSAKey L bits w =
      ({ key := some (key.rsa k), pub := some p, err := none },
       { rand := (L.rsaGenerateKey w.rand bits).2,
         calls := w.calls ++ [Call.rsaGenerateKey bits] ++
           [Call.sshNewPublicKey (Sum.inl (L.rsaPublic k))] }) := by
  simp only [generateRSAKey, rsa.GenerateKey, ssh.NewPublicKey, hg, hc]

/-- The pairs of a size and the curve the `switch` of `generateECDSAKey` assigns for
it. -/
theorem generateECDSAKey_switch (L : Crypto) (bits : Int) (curve : Curve) (w : World L)
    (h : (bits = 256 ∧ curve = Curve.P256) ∨ (bits = 384 ∧ curve = Curve.P384) ∨
      (bits = 521 ∧ curve = Curve.P521)) :
    generateECDSAKey L bits w =
      match ecdsa.GenerateKey L curve w with
      | (Except.error err, w1) =>
        ({ key := none, pub := none, err := some (error.lib err) }, w1)
      | (Except.ok k, w1) =>
        match ssh.NewPublicKey L (Sum.inr (L.ecdsaPublic k)) w1 with
        | (Except.error err, w2) =>
          ({ key := none, pub := none, err := some (error.lib err) }, w2)
        | (Except.ok pub, w2) =>
          ({ key := some (key.ecdsa k), pub := some pub, err := none }, w2) := by
  rcases h with ⟨hb, hc⟩ | ⟨hb, hc⟩ | ⟨hb, hc⟩ <;> subst hb <;> subst hc <;> rfl

theorem generateECDSAKey_gen_error (L : Crypto) (bits : Int) (curve : Curve) (w : World L)
    (e : L.Error)
    (h : (bits = 256 ∧ curve = Curve.P256) ∨ (bits = 384 ∧ curve = Curve.P384) ∨
      (bits = 521 ∧ curve = Curve.P521))
    (hg : (L.ecdsaGenerateKey curve w.rand).1 = Except.error e) :
    generateECDSAKey L bits w =
      ({ key := none, pub := none, err := some (error.lib e) },
       { rand := (L.ecdsaGenerateKey curve w.rand).2,
         calls := w.calls ++ [Call.ecdsaGenerateKey curve] }) := by
  rw [generateECDSAKey_switch L bits curve w h]
  simp only [ecdsa.GenerateKey, hg]

theorem generateECDSAKey_conv_error (L : Crypto) (bits : Int) (curve : Curve) (w : World L)
    (k : L.ECDSAPrivateKey) (e : L.Error)
    (h : (bits = 256 ∧ curve = Curve.P256) ∨ (bits = 384 ∧ curve = Curve.P384) ∨
      (bits = 521 ∧ curve = Curve.P521))
    (hg : (L.ecdsaGenerateKey curve w.rand).1 = Except.ok k)
    (hc : L.sshNewPublicKey (Sum.inr (L.ecdsaPublic k)) = Except.error e) :
    generateECDSAKey L bits w =
      ({ key := none, pub := none, err := some (error.lib e) },
       { rand := (L.ecdsaGenerateKey curve w.rand).2,
         calls := w.calls ++ [Call.ecdsaGenerateKey curve] ++
           [Call.sshNewPublicKey (Sum.inr (L.ecdsaPublic k))] }) := by
  rw [generateECDSAKey_switch L bits curve w h]
  simp only [ecdsa.GenerateKey, ssh.NewPublicKey, hg, hc]

theorem generateECDSAKey_ok (L : Crypto) (bits : Int) (curve : Curve) (w : World L)
    (k : L.ECDSAPrivateKey) (p : L.SSHPublicKey)
    (h : (bits = 256 ∧ curve = Curve.P256) ∨ (bits = 384 ∧ curve = Curve.P384) ∨
      (bits = 521 ∧ curve = Curve.P521))
    (hg : (L.ecdsaGenerateKey curve w.rand).1 = Except.ok k)
    (hc : L.sshNewPublicKey (Sum.inr (L.ecdsaPublic k)) = Except.ok p) :
    generateECDSAKey L bits w =
      ({ key := some (key.ecdsa k), pub := some p, err := none },
       { rand := (L.ecdsaGenerateKey curve w.rand).2,
         calls := w.calls ++ [Call.ecdsaGenerateKey curve] ++
           [Call.sshNewPublicKey (Sum.inr (L.ecdsaPublic k))] }) := by
  rw [generateECDSAKey_switch L bits curve w h]
  simp only [ecdsa.GenerateKey, ssh.NewPublicKey, hg, hc]

/-- Every size is either outside the `switch` or has its curve. -/
theorem bits_cases (bits : Int) :
    (bits ≠ 256 ∧ bits ≠ 384 ∧ bits ≠ 521) ∨
      ∃ curve : Curve, (bits = 256 ∧ curve = Curve.P256) ∨
        (bits = 384 ∧ curve = Curve.P384) ∨ (bits = 521 ∧ curve = Curve.P521) := by
  by_cases h1 : bits = 256
  · exact Or.inr ⟨Curve.P256, Or.inl ⟨h1, rfl⟩⟩
  · by_cases h2 : bits = 384
    · exact Or.inr ⟨Curve.P384, Or.inr (Or.inl ⟨h2, rfl⟩)⟩
    · by_cases h3 : bits = 521
      · exact Or.inr ⟨Curve.P521, Or.inr (Or.inr ⟨h3, rfl⟩)⟩
      · exact Or.inl ⟨h1, h2, h3⟩

/-- A registered name is one of the two, an unregistered one is neither. -/
theorem keytype_cases (keytype : String) :
    keytype = "rsa" ∨ keytype = "ecdsa" ∨ (keytype ≠ "rsa" ∧ keytype ≠ "ecdsa") := by
  by_cases h1 : keytype = "rsa"
  · exact Or.inl h1
  · by_cases h2 : keytype = "ecdsa"
    · exact Or.inr (Or.inl h2)
    · exact Or.inr (Or.inr ⟨h1, h2⟩)

/-! ## Errors each function can return -/

theorem unsupportedKeySizeMsg_ne (rest : String) :
    unsupportedKeySizeMsg ≠ "Unsupported key type " ++ rest := by
  intro h
  have h2 := congrArg String.data h
  simp [unsupportedKeySizeMsg, String.data_append] at h2

theorem generateRSAKey_err_cases (L : Crypto) (bits : Int) (w : World L) :
    (generateRSAKey L bits w).1.err = none ∨
      ∃ e, (generateRSAKey L bits w).1.err = some (error.lib e) := by
  cases hg : (L.rsaGenerateKey w.rand bits).1 with
  | error e => exact Or.inr ⟨e, by rw [generateRSAKey_gen_error L bits w e hg]⟩
  | ok k =>
    cases hc : L.sshNewPublicKey (Sum.inl (L.rsaPublic k)) with
    | error e => exact Or.inr ⟨e, by rw [generateRSAKey_conv_error L bits w k e hg hc]⟩
    | ok p => exact Or.inl (by rw [generateRSAKey_ok L bits w k p hg hc])

theorem generateECDSAKey_err_cases (L : Crypto) (bits : Int) (w : World L) :
    (generateECDSAKey L bits w).1.err = none ∨
      (∃ e, (generateECDSAKey L bits w).1.err = some (error.lib e)) ∨
      (generateECDSAKey L bits w).1.err = some (error.errorf unsupportedKeySizeMsg) := by
  rcases bits_cases bits with ⟨h1, h2, h3⟩ | ⟨curve, h⟩
  · exact Or.inr (Or.inr (by rw [generateECDSAKey_of_invalid L bits w h1 h2 h3]))
  · cases hg : (L.ecdsaGenerateKey curve w.rand).1 with
    | error e =>
      exact Or.inr (Or.inl ⟨e, by rw [generateECDSAKey_gen_error L bits curve w e h hg]⟩)
    | ok k =>
      cases hc : L.sshNewPublicKey (Sum.inr (L.ecdsaPublic k)) with
      | error e =>
        exact Or.inr (Or.inl
          ⟨e, by rw [generateECDSAKey_conv_error L bits curve w k e h hg hc]⟩)
      | ok p => exact Or.inl (by rw [generateECDSAKey_ok L bits curve w k p h hg hc])

theorem fmtStrings_rsa_ecdsa : fmtStrings ["rsa", "ecdsa"] = "[rsa ecdsa]" := by
  decide

theorem fmtStrings_ecdsa_rsa : fmtStrings ["ecdsa", "rsa"] = "[ecdsa rsa]" := by
  decide

theorem unsupportedKeyTypeMsg_rsa_ecdsa (keytype : String) :
    unsupportedKeyTypeMsg keytype ["rsa", "ecdsa"] =
      "Unsupported key type " ++ keytype ++ ". Valid choices are [rsa ecdsa]" := by
  rw [unsupportedKeyTypeMsg, fmtStrings_rsa_ecdsa, String.append_assoc _ _ "[rsa ecdsa]"]
  rfl

theorem unsupportedKeyTypeMsg_ecdsa_rsa (keytype : String) :
    unsupportedKeyTypeMsg keytype ["ecdsa", "rsa"] =
      "Unsupported key type " ++ keytype ++ ". Valid choices are [ecdsa rsa]" := by
  rw [unsupportedKeyTypeMsg, fmtStrings_ecdsa_rsa, String.append_assoc _ _ "[ecdsa rsa]"]
  rfl

/-! ## The claims -/

/-- C1: for every key type name other than "rsa" and "ecdsa" and every size,
`generateKey` returns a nil key, a nil public key and a non-nil error whose message
starts with "Unsupported key type " followed by the name. -/
theorem generateKey_unsupported_key_type (L : Crypto) (order : Nat) (keytype : String)
    (bits : Int) (w : World L) (h1 : keytype ≠ "rsa") (h2 : keytype ≠ "ecdsa") :
    (generateKey L order keytype bits w).1.key = none ∧
      (generateKey L order keytype bits w).1.pub = none ∧
      ∃ rest : String, (generateKey L order keytype bits w).1.err =
        some (error.errorf ("Unsupported key type " ++ keytype ++ rest)) := by
  rw [generateKey_of_unregistered L order keytype bits w h1 h2]
  refine ⟨rfl, rfl, ". Valid choices are " ++ fmtStrings (rangeKeys (keytypes L) order), ?_⟩
  simp only [unsupportedKeyTypeMsg, String.append_assoc]

/-- C1 at the case variant "RSA" and at the empty name, on the concrete library. -/
theorem generateKey_unsupported_key_type_witness :
    ("RSA" ≠ "rsa" ∧ "RSA" ≠ "ecdsa" ∧
      (generateKey toyCrypto 0 "RSA" 2048 toyWorld).1.key = none ∧
      (generateKey toyCrypto 0 "RSA" 2048 toyWorld).1.pub = none ∧
      ∃ rest : String, (generateKey toyCrypto 0 "RSA" 2048 toyWorld).1.err =
        some (error.errorf ("Unsupported key type " ++ "RSA" ++ rest))) ∧
    ("" ≠ "rsa" ∧ "" ≠ "ecdsa" ∧
      (generateKey toyCrypto 1 "" (-5) toyWorld).1.key = none ∧
      (generateKey toyCrypto 1 "" (-5) toyWorld).1.pub = none ∧
      ∃ rest : String, (generateKey toyCrypto 1 "" (-5) toyWorld).1.err =
        some (error.errorf ("Unsupported key type " ++ "" ++ rest))) :=
  ⟨⟨by decide, by decide,
      generateKey_unsupported_key_type toyCrypto 0 "RSA" 2048 toyWorld
        (by decide) (by decide)⟩,
    ⟨by decide, by decide,
      generateKey_unsupported_key_type toyCrypto 1 "" (-5) toyWorld
        (by decide) (by decide)⟩⟩

/-- C2: for every size other than 256, 384 and 521, `generateECDSAKey` and
`generateKey` on "ecdsa" return a nil key, a nil public key and an error whose
message is exactly "Unsupported key size. Valid sizes are '256', '384', '521'". -/
theorem generateECDSAKey_unsupported_key_size (L : Crypto) (order : Nat) (bits : Int)
    (w : World L) (h1 : bits ≠ 256) (h2 : bits ≠ 384) (h3 : bits ≠ 521) :
    ((generateECDSAKey L bits w).1.key = none ∧
      (generateECDSAKey L bits w).1.pub = none ∧
      (generateECDSAKey L bits w).1.err = some (error.errorf
        "Unsupported key size. Valid sizes are '256', '384', '521'")) ∧
    ((generateKey L order "ecdsa" bits w).1.key = none ∧
      (generateKey L order "ecdsa" bits w).1.pub = none ∧
      (generateKey L order "ecdsa" bits w).1.err = some (error.errorf
        "Unsupported key size. Valid sizes are '256', '384', '521'")) := by
  rw [generateKey_ecdsa_eq, generateECDSAKey_of_invalid L bits w h1 h2 h3]
  exact ⟨⟨rfl, rfl, rfl⟩, rfl, rfl, rfl⟩

/-- C2 at the sizes 0, -1 and 2048, on the concrete library. -/
theorem generateECDSAKey_unsupported_key_size_witness :
    (generateKey toyCrypto 0 "ecdsa" 0 toyWorld).1.err = some (error.errorf
        "Unsupported key size. Valid sizes are '256', '384', '521'") ∧
    (generateKey toyCrypto 0 "ecdsa" (-1) toyWorld).1.err = some (error.errorf
        "Unsupported key size. Valid sizes are '256', '384', '521'") ∧
    (generateKey toyCrypto 0 "ecdsa" 2048 toyWorld).1.err = some (error.errorf
        "Unsupported key size. Valid sizes are '256', '384', '521'") :=
  ⟨(generateECDSAKey_unsupported_key_size toyCrypto 0 0 toyWorld
      (by decide) (by decide) (by decide)).2.2.2,
    (generateECDSAKey_unsupported_key_size toyCrypto 0 (-1) toyWorld
      (by decide) (by decide) (by decide)).2.2.2,
    (generateECDSAKey_unsupported_key_size toyCrypto 0 2048 toyWorld
      (by decide) (by decide) (by decide)).2.2.2⟩

/-- C4: for every size and every state of the random source, `generateKey` on "rsa"
is `generateRSAKey` and on "ecdsa" is `generateECDSAKey`, result and final state
alike, and neither returns an error whose message starts with
"Unsupported key type ". -/
theorem generateKey_delegates (L : Crypto) (order : Nat) (bits : Int) (w : World L) :
    generateKey L order "rsa" bits w = generateRSAKey L bits w ∧
      generateKey L order "ecdsa" bits w = generateECDSAKey L bits w ∧
      (∀ rest : String, (generateKey L order "rsa" bits w).1.err ≠
        some (error.errorf ("Unsupported key type " ++ rest))) ∧
      (∀ rest : String, (generateKey L order "ecdsa" bits w).1.err ≠
        some (error.errorf ("Unsupported key type " ++ rest))) := by
  refine ⟨generateKey_rsa_eq L order bits w, generateKey_ecdsa_eq L order bits w, ?_, ?_⟩
  · intro rest h
    rw [generateKey_rsa_eq] at h
    rcases generateRSAKey_err_cases L bits w with h0 | ⟨e, he⟩
    · rw [h0] at h; cases h
    · rw [he] at h; cases h
  · intro rest h
    rw [generateKey_ecdsa_eq] at h
    rcases generateECDSAKey_err_cases L bits w with h0 | ⟨e, he⟩ | hs
    · rw [h0] at h; cases h
    · rw [he] at h; cases h
    · rw [hs] at h
      injection h with h
      injection h with h
      exact unsupportedKeySizeMsg_ne rest h

/-- C7: for every unregistered key type name, the error message of `generateKey` lists
an ordering of the registered names, each exactly once: it is
"Unsupported key type NAME. Valid choices are [rsa ecdsa]" or the same with
"[ecdsa rsa]", and each of the two occurs for some iteration order. -/
theorem generateKey_error_lists_registered (L : Crypto) (order : Nat) (keytype : String)
    (bits : Int) (w : World L) (h1 : keytype ≠ "rsa") (h2 : keytype ≠ "ecdsa") :
    (∃ valid : List String,
      valid.Perm ((keytypes L).map Prod.fst) ∧ valid.Perm ["rsa", "ecdsa"] ∧
      (generateKey L order keytype bits w).1.err = some (error.errorf
        ("Unsupported key type " ++ keytype ++ ". Valid choices are " ++
          fmtStrings valid))) ∧
    ((generateKey L order keytype bits w).1.err = some (error.errorf
        ("Unsupported key type " ++ keytype ++ ". Valid choices are [rsa ecdsa]")) ∨
      (generateKey L order keytype bits w).1.err = some (error.errorf
        ("Unsupported key type " ++ keytype ++ ". Valid choices are [ecdsa rsa]"))) ∧
    (generateKey L 0 keytype bits w).1.err = some (error.errorf
        ("Unsupported key type " ++ keytype ++ ". Valid choices are [rsa ecdsa]")) ∧
    (generateKey L 1 keytype bits w).1.err = some (error.errorf
        ("Unsupported key type " ++ keytype ++ ". Valid choices are [ecdsa rsa]")) := by
  have hnames : (keytypes L).map Prod.fst = ["rsa", "ecdsa"] := rfl
  have h0 : rangeKeys (keytypes L) 0 = ["rsa", "ecdsa"] := rfl
  have h1' : rangeKeys (keytypes L) 1 = ["ecdsa", "rsa"] := rfl
  simp only [generateKey_of_unregistered L _ keytype bits w h1 h2, hnames]
  refine ⟨⟨rangeKeys (keytypes L) order, ?_, ?_, rfl⟩, ?_, ?_, ?_⟩
  · rcases rangeKeys_keytypes L order with h | h <;> rw [h]
    exact List.Perm.swap _ _ _
  · rcases rangeKeys_keytypes L order with h | h <;> rw [h]
    exact List.Perm.swap _ _ _
  · rcases rangeKeys_keytypes L order with h | h <;> rw [h]
    · exact Or.inl (by rw [unsupportedKeyTypeMsg_rsa_ecdsa])
    · exact Or.inr (by rw [unsupportedKeyTypeMsg_ecdsa_rsa])
  · rw [h0, unsupportedKeyTypeMsg_rsa_ecdsa]
  · rw [h1', unsupportedKeyTypeMsg_ecdsa_rsa]

/-- C7 at the name "dsa" with the second iteration order, on the concrete library. -/
theorem generateKey_error_lists_registered_witness :
    "dsa" ≠ "rsa" ∧ "dsa" ≠ "ecdsa" ∧
    ((generateKey toyCrypto 1 "dsa" 1024 toyWorld).1.err = some (error.errorf
        ("Unsupported key type " ++ "dsa" ++ ". Valid choices are [rsa ecdsa]")) ∨
      (generateKey toyCrypto 1 "dsa" 1024 toyWorld).1.err = some (error.errorf
        ("Unsupported key type " ++ "dsa" ++ ". Valid choices are [ecdsa rsa]"))) :=
  ⟨by decide, by decide,
    (generateKey_error_lists_registered toyCrypto 1 "dsa" 1024 toyWorld
      (by decide) (by decide)).2.1⟩

/-- C3: for sizes 256, 384, 521 and the curves P-256, P-384, P-521 in that order, the
trace of `generateKey` on "ecdsa" has one generation call, on that curve, followed
only by SSH conversions; when the call succeeds the returned private key is the
key that generation on that curve produced and the returned public key is the SSH
conversion of its public component, and that component names the curve whenever the
library generates keys on the curve it is given. -/
theorem generateECDSAKey_curve (L : Crypto) (order : Nat) (bits : Int) (curve : Curve)
    (w : World L)
    (h : (bits = 256 ∧ curve = Curve.P256) ∨ (bits = 384 ∧ curve = Curve.P384) ∨
      (bits = 521 ∧ curve = Curve.P521)) :
    (∃ rest : List (Call L),
      (generateKey L order "ecdsa" bits w).2.calls =
        w.calls ++ Call.ecdsaGenerateKey curve :: rest ∧
      ∀ c ∈ rest, ∃ pk, c = Call.sshNewPublicKey pk) ∧
    ((generateKey L order "ecdsa" bits w).1.err = none →
      ∃ k p, (L.ecdsaGenerateKey curve w.rand).1 = Except.ok k ∧
        (generateKey L order "ecdsa" bits w).1.key = some (key.ecdsa k) ∧
        (generateKey L order "ecdsa" bits w).1.pub = some p ∧
        L.sshNewPublicKey (Sum.inr (L.ecdsaPublic k)) = Except.ok p ∧
        ((∀ c r k', (L.ecdsaGenerateKey c r).1 = Except.ok k' →
            L.ecdsaCurve (L.ecdsaPublic k') = c) →
          L.ecdsaCurve (L.ecdsaPublic k) = curve)) := by
  rw [generateKey_ecdsa_eq]
  cases hg : (L.ecdsaGenerateKey curve w.rand).1 with
  | error e =>
    rw [generateECDSAKey_gen_error L bits curve w e h hg]
    refine ⟨⟨[], rfl, ?_⟩, ?_⟩
    · intro c hc; cases hc
    · intro hs; cases hs
  | ok k =>
    cases hc : L.sshNewPublicKey (Sum.inr (L.ecdsaPublic k)) with
    | error e =>
      rw [generateECDSAKey_conv_error L bits curve w k e h hg hc]
      refine ⟨⟨[Call.sshNewPublicKey (Sum.inr (L.ecdsaPublic k))], ?_, ?_⟩, ?_⟩
      · simp
      · intro c hmem
        exact ⟨_, List.mem_singleton.mp hmem⟩
      · intro hs; cases hs
    | ok p =>
      rw [generateECDSAKey_ok L bits curve w k p h hg hc]
      refine ⟨⟨[Call.sshNewPublicKey (Sum.inr (L.ecdsaPublic k))], ?_, ?_⟩, ?_⟩
      · simp
      · intro c hmem
        exact ⟨_, List.mem_singleton.mp hmem⟩
      · intro _
        exact ⟨k, p, rfl, rfl, rfl, hc, fun hlib => hlib curve w.rand k hg⟩

/-- C3 at size 384 on the concrete library, whose generation returns keys on the
curve it is given: the returned key names P-384. -/
theorem generateECDSAKey_curve_witness :
    ∃ k p, (generateKey toyCrypto 0 "ecdsa" 384 toyWorld).1.key = some (key.ecdsa k) ∧
      (generateKey toyCrypto 0 "ecdsa" 384 toyWorld).1.pub = some p ∧
      toyCrypto.sshNewPublicKey (Sum.inr (toyCrypto.ecdsaPublic k)) = Except.ok p ∧
      toyCrypto.ecdsaCurve (toyCrypto.ecdsaPublic k) = Curve.P384 := by
  obtain ⟨k, p, _, hk, hp, hc, hcurve⟩ :=
    (generateECDSAKey_curve toyCrypto 0 384 Curve.P384 toyWorld
      (Or.inr (Or.inl ⟨rfl, rfl⟩))).2 rfl
  refine ⟨k, p, hk, hp, hc, hcurve ?_⟩
  intro c r k' hgen
  have hk' : k' = (c, r) := by
    have h2 : (Except.ok (c, r) : Except String (Curve × Nat)) = Except.ok k' := hgen
    injection h2 with h2
    exact h2.symm
  rw [hk']
  rfl

/-- C5: whenever `generateRSAKey`, `generateECDSAKey` or `generateKey` returns a nil
error, the returned public key is `ssh.NewPublicKey` of the public component of the
private key returned in the same result. -/
theorem public_key_of_returned_key (L : Crypto) (order : Nat) (keytype : String)
    (bits : Int) (w : World L) :
    ((generateRSAKey L bits w).1.err = none →
      ∃ k p, (generateRSAKey L bits w).1.key = some (key.rsa k) ∧
        (generateRSAKey L bits w).1.pub = some p ∧
        L.sshNewPublicKey (Sum.inl (L.rsaPublic k)) = Except.ok p) ∧
    ((generateECDSAKey L bits w).1.err = none →
      ∃ k p, (generateECDSAKey L bits w).1.key = some (key.ecdsa k) ∧
        (generateECDSAKey L bits w).1.pub = some p ∧
        L.sshNewPublicKey (Sum.inr (L.ecdsaPublic k)) = Except.ok p) ∧
    ((generateKey L order keytype bits w).1.err = none →
      (keytype = "rsa" ∧
        ∃ k p, (generateKey L order keytype bits w).1.key = some (key.rsa k) ∧
          (generateKey L order keytype bits w).1.pub = some p ∧
          L.sshNewPublicKey (Sum.inl (L.rsaPublic k)) = Except.ok p) ∨
      (keytype = "ecdsa" ∧
        ∃ k p, (generateKey L order keytype bits w).1.key = some (key.ecdsa k) ∧
          (generateKey L order keytype bits w).1.pub = some p ∧
          L.sshNewPublicKey (Sum.inr (L.ecdsaPublic k)) = Except.ok p)) := by
  have hrsa : (generateRSAKey L bits w).1.err = none →
      ∃ k p, (generateRSAKey L bits w).1.key = some (key.rsa k) ∧
        (generateRSAKey L bits w).1.pub = some p ∧
        L.sshNewPublicKey (Sum.inl (L.rsaPublic k)) = Except.ok p := by
    cases hg : (L.rsaGenerateKey w.rand bits).1 with
    | error e =>
      rw [generateRSAKey_gen_error L bits w e hg]
      intro hs; cases hs
    | ok k =>
      cases hc : L.sshNewPublicKey (Sum.inl (L.rsaPublic k)) with
      | error e =>
        rw [generateRSAKey_conv_error L bits w k e hg hc]
        intro hs; cases hs
      | ok p =>
        rw [generateRSAKey_ok L bits w k p hg hc]
        intro _
        exact ⟨k, p, rfl, rfl, hc⟩
  have hec : (generateECDSAKey L bits w).1.err = none →
      ∃ k p, (generateECDSAKey L bits w).1.key = some (key.ecdsa k) ∧
        (generateECDSAKey L bits w).1.pub = some p ∧
        L.sshNewPublicKey (Sum.inr (L.ecdsaPublic k)) = Except.ok p := by
    rcases bits_cases bits with ⟨h1, h2, h3⟩ | ⟨curve, h⟩
    · rw [generateECDSAKey_of_invalid L bits w h1 h2 h3]
      intro hs; cases hs
    · cases hg : (L.ecdsaGenerateKey curve w.rand).1 with
      | error e =>
        rw [generateECDSAKey_gen_error L bits curve w e h hg]
        intro hs; cases hs
      | ok k =>
        cases hc : L.sshNewPublicKey (Sum.inr (L.ecdsaPublic k)) with
        | error e =>
          rw [generateECDSAKey_conv_error L bits curve w k e h hg hc]
          intro hs; cases hs
        | ok p =>
          rw [generateECDSAKey_ok L bits curve w k p h hg hc]
          intro _
          exact ⟨k, p, rfl, rfl, hc⟩
  refine ⟨hrsa, hec, ?_⟩
  rcases keytype_cases keytype with hk | hk | ⟨hk1, hk2⟩
  · subst hk
    rw [generateKey_rsa_eq]
    intro hs
    exact Or.inl ⟨rfl, hrsa hs⟩
  · subst hk
    rw [generateKey_ecdsa_eq]
    intro hs
    exact Or.inr ⟨rfl, hec hs⟩
  · rw [generateKey_of_unregistered L order keytype bits w hk1 hk2]
    intro hs; cases hs

/-- C5 on the concrete library: an RSA key of 2048 bits and an ECDSA key on P-256,
each returned with the conversion of its own public component. -/
theorem public_key_of_returned_key_witness :
    (∃ k p, (generateRSAKey toyCrypto 2048 toyWorld).1.key = some (key.rsa k) ∧
      (generateRSAKey toyCrypto 2048 toyWorld).1.pub = some p ∧
      toyCrypto.sshNewPublicKey (Sum.inl (toyCrypto.rsaPublic k)) = Except.ok p) ∧
    (∃ k p, (generateECDSAKey toyCrypto 256 toyWorld).1.key = some (key.ecdsa k) ∧
      (generateECDSAKey toyCrypto 256 toyWorld).1.pub = some p ∧
      toyCrypto.sshNewPublicKey (Sum.inr (toyCrypto.ecdsaPublic k)) = Except.ok p) :=
  ⟨(public_key_of_returned_key toyCrypto 0 "rsa" 2048 toyWorld).1 rfl,
    (public_key_of_returned_key toyCrypto 0 "ecdsa" 256 toyWorld).2.1 rfl⟩

/-- C6: `generateRSAKey` calls RSA generation for every size and fails exactly when
generation fails or the SSH conversion of the generated public key fails, returning
that library error itself; after a generation failure no conversion is attempted.
The same holds for `generateECDSAKey` at a size with a curve. -/
theorem library_errors_pass_through (L : Crypto) (bits ebits : Int) (curve : Curve)
    (w : World L)
    (h : (ebits = 256 ∧ curve = Curve.P256) ∨ (ebits = 384 ∧ curve = Curve.P384) ∨
      (ebits = 521 ∧ curve = Curve.P521)) :
    ((∃ rest : List (Call L), (generateRSAKey L bits w).2.calls =
        w.calls ++ Call.rsaGenerateKey bits :: rest) ∧
      (∀ e, (L.rsaGenerateKey w.rand bits).1 = Except.error e →
        (generateRSAKey L bits w).1 = { key := none, pub := none, err := some (error.lib e) } ∧
        (generateRSAKey L bits w).2.calls = w.calls ++ [Call.rsaGenerateKey bits]) ∧
      (∀ k e, (L.rsaGenerateKey w.rand bits).1 = Except.ok k →
        L.sshNewPublicKey (Sum.inl (L.rsaPublic k)) = Except.error e →
        (generateRSAKey L bits w).1 =
          { key := none, pub := none, err := some (error.lib e) }) ∧
      ((generateRSAKey L bits w).1.err ≠ none ↔
        (∃ e, (L.rsaGenerateKey w.rand bits).1 = Except.error e) ∨
        (∃ k e, (L.rsaGenerateKey w.rand bits).1 = Except.ok k ∧
          L.sshNewPublicKey (Sum.inl (L.rsaPublic k)) = Except.error e))) ∧
    ((∃ rest : List (Call L), (generateECDSAKey L ebits w).2.calls =
        w.calls ++ Call.ecdsaGenerateKey curve :: rest) ∧
      (∀ e, (L.ecdsaGenerateKey curve w.rand).1 = Except.error e →
        (generateECDSAKey L ebits w).1 =
          { key := none, pub := none, err := some (error.lib e) } ∧
        (generateECDSAKey L ebits w).2.calls = w.calls ++ [Call.ecdsaGenerateKey curve]) ∧
      (∀ k e, (L.ecdsaGenerateKey curve w.rand).1 = Except.ok k →
        L.sshNewPublicKey (Sum.inr (L.ecdsaPublic k)) = Except.error e →
        (generateECDSAKey L ebits w).1 =
          { key := none, pub := none, err := some (error.lib e) }) ∧
      ((generateECDSAKey L ebits w).1.err ≠ none ↔
        (∃ e, (L.ecdsaGenerateKey curve w.rand).1 = Except.error e) ∨
        (∃ k e, (L.ecdsaGenerateKey curve w.rand).1 = Except.ok k ∧
          L.sshNewPublicKey (Sum.inr (L.ecdsaPublic k)) = Except.error e))) := by
  constructor
  · refine ⟨?_, ?_, ?_, ?_⟩
    · cases hg : (L.rsaGenerateKey w.rand bits).1 with
      | error e =>
        rw [generateRSAKey_gen_error L bits w e hg]
        exact ⟨[], rfl⟩
      | ok k =>
        cases hc : L.sshNewPublicKey (Sum.inl (L.rsaPublic k)) with
        | error e =>
          rw [generateRSAKey_conv_error L bits w k e hg hc]
          exact ⟨[Call.sshNewPublicKey (Sum.inl (L.rsaPublic k))], by simp⟩
        | ok p =>
          rw [generateRSAKey_ok L bits w k p hg hc]
          exact ⟨[Call.sshNewPublicKey (Sum.inl (L.rsaPublic k))], by simp⟩
    · intro e hg
      rw [generateRSAKey_gen_error L bits w e hg]
      exact ⟨rfl, rfl⟩
    · intro k e hg hc
      rw [generateRSAKey_conv_error L bits w k e hg hc]
    · cases hg : (L.rsaGenerateKey w.rand bits).1 with
      | error e =>
        rw [generateRSAKey_gen_error L bits w e hg]
        exact ⟨fun _ => Or.inl ⟨e, rfl⟩, fun _ hn => by cases hn⟩
      | ok k =>
        cases hc : L.sshNewPublicKey (Sum.inl (L.rsaPublic k)) with
        | error e =>
          rw [generateRSAKey_conv_error L bits w k e hg hc]
          exact ⟨fun _ => Or.inr ⟨k, e, rfl, hc⟩, fun _ hn => by cases hn⟩
        | ok p =>
          rw [generateRSAKey_ok L bits w k p hg hc]
          constructor
          · intro hn; exact absurd rfl hn
          · rintro (⟨e, he⟩ | ⟨k', e, hk', he⟩)
            · cases he
            · injection hk' with hk'
              subst hk'
              rw [hc] at he
              cases he
  · refine ⟨?_, ?_, ?_, ?_⟩
    · cases hg : (L.ecdsaGenerateKey curve w.rand).1 with
      | error e =>
        rw [generateECDSAKey_gen_error L ebits curve w e h hg]
        exact ⟨[], rfl⟩
      | ok k =>
        cases hc : L.sshNewPublicKey (Sum.inr (L.ecdsaPublic k)) with
        | error e =>
          rw [generateECDSAKey_conv_error L ebits curve w k e h hg hc]
          exact ⟨[Call.sshNewPublicKey (Sum.inr (L.ecdsaPublic k))], by simp⟩
        | ok p =>
          rw [generateECDSAKey_ok L ebits curve w k p h hg hc]
          exact ⟨[Call.sshNewPublicKey (Sum.inr (L.ecdsaPublic k))], by simp⟩
    · intro e hg
      rw [generateECDSAKey_gen_error L ebits curve w e h hg]
      exact ⟨rfl, rfl⟩
    · intro k e hg hc
      rw [generateECDSAKey_conv_error L ebits curve w k e h hg hc]
    · cases hg : (L.ecdsaGenerateKey curve w.rand).1 with
      | error e =>
        rw [generateECDSAKey_gen_error L ebits curve w e h hg]
        exact ⟨fun _ => Or.inl ⟨e, rfl⟩, fun _ hn => by cases hn⟩
      | ok k =>
        cases hc : L.sshNewPublicKey (Sum.inr (L.ecdsaPublic k)) with
        | error e =>
          rw [generateECDSAKey_conv_error L ebits curve w k e h hg hc]
          exact ⟨fun _ => Or.inr ⟨k, e, rfl, hc⟩, fun _ hn => by cases hn⟩
        | ok p =>
          rw [generateECDSAKey_ok L ebits curve w k p h hg hc]
          constructor
          · intro hn; exact absurd rfl hn
          · rintro (⟨e, he⟩ | ⟨k', e, hk', he⟩)
            · cases he
            · injection hk' with hk'
              subst hk'
              rw [hc] at he
              cases he

/-- C6 on the concrete library: at 1 bit RSA generation fails and its error is
returned with no conversion attempted; at 3 bits generation succeeds, the conversion
fails and its error is returned. -/
theorem library_errors_pass_through_witness :
    ((generateRSAKey toyCrypto 1 toyWorld).1 =
        { key := none, pub := none, err := some (error.lib "crypto/rsa: too few bits") } ∧
      (generateRSAKey toyCrypto 1 toyWorld).2.calls =
        toyWorld.calls ++ [Call.rsaGenerateKey 1]) ∧
    (generateRSAKey toyCrypto 3 toyWorld).1 =
        { key := none, pub := none, err := some (error.lib "ssh: unsupported key") } :=
  ⟨(library_errors_pass_through toyCrypto 1 256 Curve.P256 toyWorld
      (Or.inl ⟨rfl, rfl⟩)).1.2.1 "crypto/rsa: too few bits" rfl,
    (library_errors_pass_through toyCrypto 3 256 Curve.P256 toyWorld
      (Or.inl ⟨rfl, rfl⟩)).1.2.2.1 ((3 : Int), (7 : Nat)) "ssh: unsupported key" rfl rfl⟩

theorem generateRSAKey_wholeOrEmpty (L : Crypto) (bits : Int) (w : World L) :
    (generateRSAKey L bits w).1.wholeOrEmpty := by
  cases hg : (L.rsaGenerateKey w.rand bits).1 with
  | error e =>
    rw [generateRSAKey_gen_error L bits w e hg]
    exact Or.inr ⟨by simp, rfl, rfl⟩
  | ok k =>
    cases hc : L.sshNewPublicKey (Sum.inl (L.rsaPublic k)) with
    | error e =>
      rw [generateRSAKey_conv_error L bits w k e hg hc]
      exact Or.inr ⟨by simp, rfl, rfl⟩
    | ok p =>
      rw [generateRSAKey_ok L bits w k p hg hc]
      exact Or.inl ⟨rfl, by simp, by simp⟩

theorem generateECDSAKey_wholeOrEmpty (L : Crypto) (bits : Int) (w : World L) :
    (generateECDSAKey L bits w).1.wholeOrEmpty := by
  rcases bits_cases bits with ⟨h1, h2, h3⟩ | ⟨curve, h⟩
  · rw [generateECDSAKey_of_invalid L bits w h1 h2 h3]
    exact Or.inr ⟨by simp, rfl, rfl⟩
  · cases hg : (L.ecdsaGenerateKey curve w.rand).1 with
    | error e =>
      rw [generateECDSAKey_gen_error L bits curve w e h hg]
      exact Or.inr ⟨by simp, rfl, rfl⟩
    | ok k =>
      cases hc : L.sshNewPublicKey (Sum.inr (L.ecdsaPublic k)) with
      | error e =>
        rw [generateECDSAKey_conv_error L bits curve w k e h hg hc]
        exact Or.inr ⟨by simp, rfl, rfl⟩
      | ok p =>
        rw [generateECDSAKey_ok L bits curve w k p h hg hc]
        exact Or.inl ⟨rfl, by simp, by simp⟩

/-- C8: for every key type name and size the result of `generateKey` is either a nil
error with a key and a public key, or a non-nil error with a nil key and a nil public
key; in particular no key is returned when generation succeeds and the SSH conversion
fails. -/
theorem generateKey_no_partial_failure (L : Crypto) (order : Nat) (keytype : String)
    (bits : Int) (w : World L) :
    (((generateKey L order keytype bits w).1.err = none ∧
        (generateKey L order keytype bits w).1.key ≠ none ∧
        (generateKey L order keytype bits w).1.pub ≠ none) ∨
      ((generateKey L order keytype bits w).1.err ≠ none ∧
        (generateKey L order keytype bits w).1.key = none ∧
        (generateKey L order keytype bits w).1.pub = none)) ∧
    (∀ k e, (L.rsaGenerateKey w.rand bits).1 = Except.ok k →
      L.sshNewPublicKey (Sum.inl (L.rsaPublic k)) = Except.error e →
      (generateKey L order "rsa" bits w).1.key = none ∧
      (generateKey L order "rsa" bits w).1.pub = none ∧
      (generateKey L order "rsa" bits w).1.err = some (error.lib e)) ∧
    (∀ curve k e,
      ((bits = 256 ∧ curve = Curve.P256) ∨ (bits = 384 ∧ curve = Curve.P384) ∨
        (bits = 521 ∧ curve = Curve.P521)) →
      (L.ecdsaGenerateKey curve w.rand).1 = Except.ok k →
      L.sshNewPublicKey (Sum.inr (L.ecdsaPublic k)) = Except.error e →
      (generateKey L order "ecdsa" bits w).1.key = none ∧
      (generateKey L order "ecdsa" bits w).1.pub = none ∧
      (generateKey L order "ecdsa" bits w).1.err = some (error.lib e)) := by
  refine ⟨?_, ?_, ?_⟩
  · rcases keytype_cases keytype with hk | hk | ⟨hk1, hk2⟩
    · subst hk
      rw [generateKey_rsa_eq]
      exact generateRSAKey_wholeOrEmpty L bits w
    · subst hk
      rw [generateKey_ecdsa_eq]
      exact generateECDSAKey_wholeOrEmpty L bits w
    · rw [generateKey_of_unregistered L order keytype bits w hk1 hk2]
      exact Or.inr ⟨by simp, rfl, rfl⟩
  · intro k e hg hc
    rw [generateKey_rsa_eq, generateRSAKey_conv_error L bits w k e hg hc]
    exact ⟨rfl, rfl, rfl⟩
  · intro curve k e h hg hc
    rw [generateKey_ecdsa_eq, generateECDSAKey_conv_error L bits curve w k e h hg hc]
    exact ⟨rfl, rfl, rfl⟩

/-- C8 on the concrete library at "rsa" and 3 bits, where generation succeeds and the
conversion fails: no key is returned with the error. -/
theorem generateKey_no_partial_failure_witness :
    (generateKey toyCrypto 0 "rsa" 3 toyWorld).1.key = none ∧
      (generateKey toyCrypto 0 "rsa" 3 toyWorld).1.pub = none ∧
      (generateKey toyCrypto 0 "rsa" 3 toyWorld).1.err =
        some (error.lib "ssh: unsupported key") :=
  (generateKey_no_partial_failure toyCrypto 0 "rsa" 3 toyWorld).2.1
    ((3 : Int), (7 : Nat)) "ssh: unsupported key" rfl rfl

/-- C10: on an unregistered key type name `generateKey`, and on a size other than 256,
384 and 521 `generateECDSAKey` and `generateKey` on "ecdsa", return the outside state
they received: the random source is untouched and no external call is recorded.  Two
runs on the same arguments, with any two libraries, states and iteration orders, fail
with the same kind of error: the unsupported-key-type message for that name over an
ordering of the registered names, or the one unsupported-key-size message. -/
theorem validation_before_randomness (L L' : Crypto) (order order' : Nat)
    (keytype : String) (bits badbits : Int) (w : World L) (w' : World L')
    (h1 : keytype ≠ "rsa") (h2 : keytype ≠ "ecdsa")
    (h3 : badbits ≠ 256) (h4 : badbits ≠ 384) (h5 : badbits ≠ 521) :
    ((generateKey L order keytype bits w).2 = w ∧
      (generateKey L order keytype bits w).2.rand = w.rand ∧
      (generateKey L order keytype bits w).2.calls = w.calls ∧
      ∃ valid valid' : List String,
        valid.Perm ["rsa", "ecdsa"] ∧ valid'.Perm ["rsa", "ecdsa"] ∧
        (order = order' → valid = valid') ∧
        (generateKey L order keytype bits w).1.err =
          some (error.errorf (unsupportedKeyTypeMsg keytype valid)) ∧
        (generateKey L' order' keytype bits w').1.err =
          some (error.errorf (unsupportedKeyTypeMsg keytype valid'))) ∧
    ((generateECDSAKey L badbits w).2 = w ∧
      (generateECDSAKey L badbits w).2.rand = w.rand ∧
      (generateECDSAKey L badbits w).2.calls = w.calls ∧
      (generateKey L order "ecdsa" badbits w).2 = w ∧
      (generateECDSAKey L badbits w).1.err =
        some (error.errorf unsupportedKeySizeMsg) ∧
      (generateECDSAKey L' badbits w').1.err =
        some (error.errorf unsupportedKeySizeMsg) ∧
      (generateKey L order "ecdsa" badbits w).1.err =
        some (error.errorf unsupportedKeySizeMsg) ∧
      (generateKey L' order' "ecdsa" badbits w').1.err =
        some (error.errorf unsupportedKeySizeMsg)) := by
  constructor
  · rw [generateKey_of_unregistered L order keytype bits w h1 h2,
      generateKey_of_unregistered L' order' keytype bits w' h1 h2]
    refine ⟨rfl, rfl, rfl, rangeKeys (keytypes L) order, rangeKeys (keytypes L') order',
      ?_, ?_, ?_, rfl, rfl⟩
    · rcases rangeKeys_keytypes L order with h | h <;> rw [h]
      exact List.Perm.swap _ _ _
    · rcases rangeKeys_keytypes L' order' with h | h <;> rw [h]
      exact List.Perm.swap _ _ _
    · intro ho
      subst ho
      rfl
  · rw [generateKey_ecdsa_eq, generateKey_ecdsa_eq,
      generateECDSAKey_of_invalid L badbits w h3 h4 h5,
      generateECDSAKey_of_invalid L' badbits w' h3 h4 h5]
    exact ⟨rfl, rfl, rfl, rfl, rfl, rfl, rfl, rfl⟩

/-- C10 on the concrete library, from two states of the random source: "dsa" and the
ECDSA size 2048 leave each state as it was. -/
theorem validation_before_randomness_witness :
    ("dsa" ≠ "rsa" ∧ "dsa" ≠ "ecdsa" ∧ (2048 : Int) ≠ 256 ∧ (2048 : Int) ≠ 384 ∧
      (2048 : Int) ≠ 521) ∧
    (generateKey toyCrypto 0 "dsa" 2048 toyWorld).2 = toyWorld ∧
    (generateECDSAKey toyCrypto 2048 { rand := (99 : Nat), calls := [] }).2 =
      { rand := (99 : Nat), calls := [] } :=
  ⟨⟨by decide, by decide, by decide, by decide, by decide⟩,
    (validation_before_randomness toyCrypto toyCrypto 0 1 "dsa" 2048 2048 toyWorld
      { rand := (99 : Nat), calls := [] }
      (by decide) (by decide) (by decide) (by decide) (by decide)).1.1,
    (validation_before_randomness toyCrypto toyCrypto 0 1 "dsa" 2048 2048
      { rand := (99 : Nat), calls := [] } toyWorld
      (by decide) (by decide) (by decide) (by decide) (by decide)).2.1⟩

end Cashier
